import Mathlib

/-!
Verification of the CD import pipeline of Music-Folder-Utils (mfutil).

This file gives a shallow embedding of the pipeline:
`sanitize_filename` (src/lib/utils.rs), `read_cd_from_device`,
`lookup_cd_info`, `cd_info_from_discid_response`, `set_audio_metadata`
(src/lib/cd.rs), the cover-art fetchers (src/lib/cover_art.rs) and the
orchestrator `import_cd` (src/commands/cd.rs).

Modelling conventions:
* Machine integers (`u32`, `u64`, sector counts) are `Nat`; the source
  guards the only subtraction (`last_sector - first_sector`) by a
  comparison, and all other arithmetic stays far below the overflow
  bounds, so no wrap-around modelling is needed.
* Progress reporting over the `mpsc` channel is modelled as the list of
  strings sent, in program order.  `tx.send` on the unbounded channel is
  modelled as infallible (it fails only when the receiver is dropped).
* Hardware and network effects are parameters: the TOC and disc id read
  from the drive, the MusicBrainz discid/search responses, and the
  cover-art HTTP outcomes are passed in as values, and the functions are
  the pure computations the source performs on them.
-/

/-! ## Character predicates (Rust `char::is_whitespace`, `char::is_control`)

`isWs` is the Unicode White_Space property used by `str::trim`;
`isReplaceable` holds for the nine characters the `match` in
`sanitize_filename` replaces (`/` 47, `\` 92, `:` 58, `*` 42, `?` 63,
`"` 34, `<` 60, `>` 62, `|` 124) together with the control characters
(category Cc: 0–31 and 127–159) caught by the `c.is_control()` arm. -/

def isWs (c : Char) : Prop :=
  (9 ≤ c.toNat ∧ c.toNat ≤ 13) ∨ c.toNat = 32 ∨ c.toNat = 133 ∨ c.toNat = 160 ∨
  c.toNat = 5760 ∨ (8192 ≤ c.toNat ∧ c.toNat ≤ 8202) ∨ c.toNat = 8232 ∨ c.toNat = 8233 ∨
  c.toNat = 8239 ∨ c.toNat = 8287 ∨ c.toNat = 12288

instance (c : Char) : Decidable (isWs c) := by
  unfold isWs
  exact inferInstance

def isReplaceable (c : Char) : Prop :=
  c.toNat = 47 ∨ c.toNat = 92 ∨ c.toNat = 58 ∨ c.toNat = 42 ∨ c.toNat = 63 ∨
  c.toNat = 34 ∨ c.toNat = 60 ∨ c.toNat = 62 ∨ c.toNat = 124 ∨
  c.toNat < 32 ∨ (127 ≤ c.toNat ∧ c.toNat ≤ 159)

instance (c : Char) : Decidable (isReplaceable c) := by
  unfold isReplaceable
  exact inferInstance

/-- The per-character replacement performed by the `match` inside
`sanitize_filename`: the problematic characters and control characters
become an underscore, everything else is kept. -/
def sanChar (c : Char) : Char := if isReplaceable c then '_' else c

/-- Boolean form of `isWs`, for `List.dropWhile`. -/
def wsB (c : Char) : Bool := decide (isWs c)

/-- Rust `str::trim`: remove leading and trailing whitespace. -/
def trimChars (l : List Char) : List Char :=
  ((l.dropWhile wsB).reverse.dropWhile wsB).reverse

/-- `sanitize_filename` from src/lib/utils.rs: map each character
through the replacement `match`, collect, then `trim`. -/
def sanitize_filename (s : String) : String :=
  String.mk (trimChars (s.data.map sanChar))

/-! ## Decimal rendering of naturals (Rust `format!` of `u32`/`u64`) -/

/-- The character of a decimal digit (out-of-range inputs, which never
occur, render as the digit 0). -/
def digitChar (d : Nat) : Char :=
  if d = 0 then '0' else if d = 1 then '1' else if d = 2 then '2' else
  if d = 3 then '3' else if d = 4 then '4' else if d = 5 then '5' else
  if d = 6 then '6' else if d = 7 then '7' else if d = 8 then '8' else '9'

/-- Fuel-driven decimal digit list of `n`; `fuel > n` always suffices. -/
def natToDecAux : Nat → Nat → List Char
  | 0, _ => []
  | fuel+1, n =>
    if n < 10 then [digitChar n]
    else natToDecAux fuel (n / 10) ++ [digitChar (n % 10)]

/-- Decimal rendering of a natural number, as `format!("{}", n)` does. -/
def natToDec (n : Nat) : String := String.mk (natToDecAux (n+1) n)

/-- `format!("{:02}", n)`: zero-pad to width two. -/
def pad2 (n : Nat) : String := if n < 10 then "0" ++ natToDec n else natToDec n

/-- The output filename format used for CD tracks:
`format!("{:02} {}.flac", number, utils::sanitize_filename(title))`. -/
def trackFilename (number : Nat) (title : String) : String :=
  pad2 number ++ " " ++ sanitize_filename title ++ ".flac"

/-! ## Data model (src/lib/cd.rs) -/

/-- `CdTrack`: information about a CD track. `duration` is in seconds. -/
structure CdTrack where
  number : Nat
  title : String
  artist : String
  duration : Nat
  filename : String
deriving DecidableEq, Repr

/-- `CdInfo`: information about a CD. -/
structure CdInfo where
  disc_id : String
  title : String
  artist : String
  tracks : List CdTrack
  total_duration : Nat
  release_id : Option String
deriving DecidableEq, Repr

/-- `tracks.iter().map(|t| t.duration).sum()`. -/
def sumDurations (l : List CdTrack) : Nat := (l.map (fun t => t.duration)).sum

/-- One entry of the table of contents as reported by cdparanoia for a
track index: whether `track_audiop` holds, and the first/last sectors. -/
structure TocEntry where
  isAudio : Bool
  firstSector : Nat
  lastSector : Nat
deriving DecidableEq, Repr

/-- What the drive yields in `read_cd_from_device`: the discid crate's
disc id, first/last track numbers and sector count, plus the per-track
TOC data queried from cdparanoia (entry `i` of `toc` answers the calls
for track number `i + 1`). -/
structure DiscReadData where
  discIdStr : String
  firstTrack : Nat
  lastTrack : Nat
  sectors : Nat
  toc : List TocEntry
deriving DecidableEq, Repr

/-- The track built for TOC index `i` in the loop of
`read_cd_from_device`: placeholder title `Track {:02}`, placeholder
artist, duration `(last_sector - first_sector) / 75`. -/
def mkTrack (i : Nat) (e : TocEntry) : CdTrack :=
  { number := i
    title := "Track " ++ pad2 i
    artist := "Unknown Artist"
    duration := (e.lastSector - e.firstSector) / 75
    filename := trackFilename i ("Track " ++ pad2 i) }

/-- The `for i in 1..=num_tracks` loop of `read_cd_from_device`,
started at index `i`: non-audio entries are skipped silently, audio
entries with `last_sector < first_sector` are skipped with a `warn!`
message (first component), valid audio entries yield a `CdTrack`.  -/
def tracksFromTocAux : Nat → List TocEntry → List String × List CdTrack
  | _, [] => ([], [])
  | i, e :: rest =>
    if e.isAudio then
      if e.lastSector < e.firstSector then
        let r := tracksFromTocAux (i+1) rest
        (("Invalid sector range for track " ++ natToDec i ++ ": first=" ++
            natToDec e.firstSector ++ " last=" ++ natToDec e.lastSector) :: r.1, r.2)
      else
        let r := tracksFromTocAux (i+1) rest
        (r.1, mkTrack i e :: r.2)
    else
      tracksFromTocAux (i+1) rest

/-- `read_cd_from_device` (src/lib/cd.rs): returns the messages sent on
`tx` and the result.  `dev` packages the drive interaction: `.error`
when `DiscId::read` / drive identify / open fails (fatal), `.ok` with
the disc id data and TOC otherwise. -/
def read_cd_from_device (device : String) (dev : Except String DiscReadData) :
    List String × Except String CdInfo :=
  let m0 := "Reading TOC from device: " ++ device
  match dev with
  | .error e => ([m0], .error e)
  | .ok dd =>
    let msgs := [m0,
      "Calculated Disc ID: " ++ dd.discIdStr,
      "Debug: First track: " ++ natToDec dd.firstTrack ++ ", Last track: " ++
        natToDec dd.lastTrack ++ ", Sectors: " ++ natToDec dd.sectors]
    let tracks := (tracksFromTocAux 1 dd.toc).2
    if tracks.isEmpty then
      (msgs, .error "No valid audio tracks found on the disc. This may indicate the CD is damaged or not readable.")
    else
      (msgs, .ok { disc_id := dd.discIdStr
                   title := "Unknown Album"
                   artist := "Unknown Artist"
                   tracks := tracks
                   total_duration := sumDurations tracks
                   release_id := none })

/-! ## Sample data: the spec's two-track scenario (sectors 0–149 and 150–299) -/

def ddSample : DiscReadData :=
  { discIdStr := "D1", firstTrack := 1, lastTrack := 2, sectors := 300
    toc := [⟨true, 0, 149⟩, ⟨true, 150, 299⟩] }

def infoSample : CdInfo :=
  { disc_id := "D1", title := "Unknown Album", artist := "Unknown Artist"
    tracks := [⟨1, "Track 01", "Unknown Artist", 1, "01 Track 01.flac"⟩,
               ⟨2, "Track 02", "Unknown Artist", 1, "02 Track 02.flac"⟩]
    total_duration := 2, release_id := none }

/-! ## JSON values (`serde_json::Value`)

Numbers are modelled as integers (`serde_json` stores non-integral
numbers as floats; none of the fields the code reads — `length` in
milliseconds — is ever fractional in the API, and `as_u64` fails on
them anyway). -/

inductive Json where
  | null
  | bool (b : Bool)
  | num (n : Int)
  | str (s : String)
  | arr (xs : List Json)
  | obj (fields : List (String × Json))

/-- Key lookup in an object's field list (serde keys are unique; the
first match is returned). -/
def findField : List (String × Json) → String → Option Json
  | [], _ => none
  | (k, v) :: rest, key => if k = key then some v else findField rest key

/-- `Value::get(&str)`: field of an object, `None` on any other value. -/
def Json.getKey : Json → String → Option Json
  | .obj fs, k => findField fs k
  | _, _ => none

/-- `Value::get(usize)`: element of an array, `None` otherwise. -/
def Json.getIdx : Json → Nat → Option Json
  | .arr xs, i => xs.get? i
  | _, _ => none

/-- `Value::as_str`. -/
def Json.asStr : Json → Option String
  | .str s => some s
  | _ => none

/-- `Value::as_array`. -/
def Json.asArr : Json → Option (List Json)
  | .arr xs => some xs
  | _ => none

/-- `Value::as_u64`: the number when it is a non-negative integer that
fits `u64`. -/
def Json.asU64 : Json → Option Nat
  | .num i => if 0 ≤ i ∧ i < (2:Int)^64 then some i.toNat else none
  | _ => none

/-- The numeric value of a decimal digit character, if it is one. -/
def digitVal (c : Char) : Option Nat :=
  if 48 ≤ c.toNat ∧ c.toNat ≤ 57 then some (c.toNat - 48) else none

/-- Accumulate the value of a digit run; `none` on any non-digit. -/
def parseU32Digits : List Char → Nat → Option Nat
  | [], acc => some acc
  | c :: rest, acc =>
    match digitVal c with
    | some d => parseU32Digits rest (acc * 10 + d)
    | none => none

/-- Rust `str::parse::<u32>()`: an optional leading `+`, then one or
more decimal digits, value below `2^32`. -/
def parseU32 (s : String) : Option Nat :=
  let cs := match s.data with
    | '+' :: rest => rest
    | cs => cs
  match cs with
  | [] => none
  | _ => (parseU32Digits cs 0).bind (fun n => if n < 2^32 then some n else none)

/-! ## Release resolution (src/lib/cd.rs) -/

/-- `release_data.get("artist-credit").and_then(as_array).and_then(first)
.and_then(get("name")).and_then(as_str).unwrap_or("Unknown Artist")`,
as done both for the "Found release" message and in
`cd_info_from_discid_response`. -/
def jsonArtistCredit (rd : Json) : String :=
  ((((rd.getKey "artist-credit").bind Json.asArr).bind List.head?).bind
    (fun a => (a.getKey "name").bind Json.asStr)).getD "Unknown Artist"

/-- `release_data.get("title").and_then(as_str).unwrap_or("Unknown Album")`. -/
def jsonReleaseTitle (rd : Json) : String :=
  ((rd.getKey "title").bind Json.asStr).getD "Unknown Album"

/-- The `tracks_array.iter().enumerate().map(...)` closure of
`cd_info_from_discid_response`, with `i` the enumeration index:
`number` parsed from the `"number"` string (default `i + 1`), title
from `"title"` (default `Track {:02}` of the number), duration from
`"length"` in milliseconds divided by 1000 (default 0), artist the
album artist. -/
def parseReleaseTracks (artist : String) : Nat → List Json → List CdTrack
  | _, [] => []
  | i, td :: rest =>
    let number := (((td.getKey "number").bind Json.asStr).bind parseU32).getD (i + 1)
    let defaultTitle := "Track " ++ pad2 number
    let title := ((td.getKey "title").bind Json.asStr).getD defaultTitle
    let duration := ((td.getKey "length").bind Json.asU64).map (fun l => l / 1000) |>.getD 0
    { number := number, title := title, artist := artist, duration := duration
      filename := trackFilename number title } :: parseReleaseTracks artist (i+1) rest

/-- The hardcoded `(1..=11)` fallback track list used whenever the
`media` → first medium → `tracks` array cannot be extracted: numbers 1
to 11, placeholder titles, 180-second durations, and a filename built
without sanitisation (`format!("{:02} Track {:02}.flac", i, i)`). -/
def fallbackTracks (artist : String) : List CdTrack :=
  (List.range 11).map (fun k =>
    { number := k + 1, title := "Track " ++ pad2 (k+1), artist := artist, duration := 180
      filename := pad2 (k+1) ++ " Track " ++ pad2 (k+1) ++ ".flac" })

/-- `cd_info_from_discid_response` (src/lib/cd.rs): builds a `CdInfo`
from the first release of a discid response.  Only `disc_id` is taken
from the incoming `CdInfo`; the track list comes entirely from the
release data (or the 1..=11 fallback).  The Rust function returns
`Result` but every path is `Ok`. -/
def cd_info_from_discid_response (rd : Json) (ci : CdInfo) : Except String CdInfo :=
  let releaseId := ((rd.getKey "id").bind Json.asStr).getD ""
  let artist := jsonArtistCredit rd
  let title := jsonReleaseTitle rd
  let tracks :=
    match rd.getKey "media" with
    | some media =>
      match media.asArr with
      | some mediaArr =>
        match mediaArr.head? with
        | some firstMedium =>
          match firstMedium.getKey "tracks" with
          | some ts =>
            match ts.asArr with
            | some tracksArr => parseReleaseTracks artist 0 tracksArr
            | none => fallbackTracks artist
          | none => fallbackTracks artist
        | none => fallbackTracks artist
      | none => fallbackTracks artist
    | none => fallbackTracks artist
  Except.ok { disc_id := ci.disc_id
              title := title
              artist := artist
              tracks := tracks
              total_duration := sumDurations tracks
              release_id := some releaseId }

/-- One entity of a `Release::search` result: its id, title, and the
optional `artist_credit` list of credit names. -/
structure SearchRelease where
  id : String
  title : String
  artistCredit : Option (List String)
deriving DecidableEq, Repr

/-- `lookup_cd_info` (src/lib/cd.rs).  `discidResult` is the outcome of
the raw discid `ApiRequest`, `searchResult` the outcome of the
`Release::search` fallback; the returned pair is the messages sent on
`tx` and the result (every path returns `Ok`; network failures are
absorbed). -/
def lookup_cd_info (ci : CdInfo) (discidResult : Except String Json)
    (searchResult : Except String (List SearchRelease)) :
    List String × Except String CdInfo :=
  let m0 := ["Looking up CD information from MusicBrainz...",
             "Attempting lookup by DiscID: " ++ ci.disc_id]
  match discidResult with
  | .ok resp =>
    match resp.getKey "releases" with
    | some releases =>
      match releases.getIdx 0 with
      | some rd =>
        match (rd.getKey "id").bind Json.asStr with
        | some rid =>
          (m0 ++ ["Found release: " ++ jsonArtistCredit rd ++ " - " ++
                    jsonReleaseTitle rd ++ " (" ++ rid ++ ")"],
           cd_info_from_discid_response rd ci)
        | none => (m0 ++ ["No release ID found in discid response"], .ok ci)
      | none => (m0 ++ ["No releases found for this discid"], .ok ci)
    | none => (m0 ++ ["Invalid discid response format"], .ok ci)
  | .error _ =>
    let m1 := m0 ++ ["DiscID lookup failed, trying search by artist/album..."]
    match searchResult with
    | .ok entities =>
      match entities.head? with
      | some r =>
        let artistCredit :=
          match r.artistCredit with
          | some credits => String.intercalate " & " credits
          | none => "Unknown Artist"
        (m1 ++ ["Found release: " ++ artistCredit ++ " - " ++ r.title ++
                  " (" ++ r.id ++ ")"],
         .ok { disc_id := ci.disc_id
               title := r.title
               artist := artistCredit
               tracks := ci.tracks
               total_duration := ci.total_duration
               release_id := some r.id })
      | none => (m1 ++ ["No exact match found, using provided information..."], .ok ci)
    | .error _ =>
      (m1 ++ ["MusicBrainz lookup failed, using provided information..."], .ok ci)

/-! ## Tag writing (`set_audio_metadata`, src/lib/cd.rs) -/

/-- The lofty `ItemKey`s the function writes. -/
inductive ItemKey where
  | trackTitle
  | trackArtist
  | albumTitle
  | albumArtist
  | trackNumber
  | musicBrainzReleaseId
deriving DecidableEq, Repr

/-- A lofty tag, as a map from item key to text value. -/
def Tag : Type := ItemKey → Option String

/-- `tag.insert_text(key, value)`: replaces the item under `key`. -/
def insertText (t : Tag) (k : ItemKey) (v : String) : Tag :=
  fun k2 => if k2 = k then some v else t k2

/-- The tagged file lofty parses from disk: its primary tag, if any. -/
structure TaggedFile where
  primaryTag : Option Tag

/-- The in-memory tag after the `insert_text` calls of
`set_audio_metadata`: title, artist, album title, album artist, track
number (rendered decimal) and, when present, the MusicBrainz release
id. -/
def inMemoryTag (tag : Tag) (track : CdTrack) (albumTitle albumArtist : String)
    (releaseId : Option String) : Tag :=
  let t1 := insertText tag .trackTitle track.title
  let t2 := insertText t1 .trackArtist track.artist
  let t3 := insertText t2 .albumTitle albumTitle
  let t4 := insertText t3 .albumArtist albumArtist
  let t5 := insertText t4 .trackNumber (natToDec track.number)
  match releaseId with
  | some id => insertText t5 .musicBrainzReleaseId id
  | none => t5

/-- `set_audio_metadata` (src/lib/cd.rs): `fileOnDisk` is what
`lofty::read_from_path` produces (`none` models `Err(_)`, which only
logs a warning).  The function mutates the primary tag in memory, but
the `tagged_file.save_to(path)` call is commented out in the source
("For now, we'll continue to skip saving as per original logic"), so
the file on disk is returned unchanged, and the result is always
`Ok(())`. -/
def set_audio_metadata (fileOnDisk : Option TaggedFile) (track : CdTrack)
    (albumTitle albumArtist : String) (releaseId : Option String) :
    Option TaggedFile × Except String Unit :=
  match fileOnDisk with
  | some tf =>
    let _mem :=
      match tf.primaryTag with
      | some tag => some (inMemoryTag tag track albumTitle albumArtist releaseId)
      | none => none
    (fileOnDisk, .ok ())
  | none =>
    (fileOnDisk, .ok ())

/-! ## Cover art (src/lib/cover_art.rs) -/

/-- Outcome of the Cover Art Archive HTTP interaction in
`fetch_musicbrainz_cover_art`: send error, non-success status, body
read error, or image bytes. -/
inductive MbCoverNet where
  | sendErr (e : String)
  | badStatus (status : String)
  | bytesErr (e : String)
  | okBytes (data : List Nat)

/-- `fetch_musicbrainz_cover_art`: messages sent and the `Ok(Option)`
payload (every branch returns `Ok`). -/
def fetch_musicbrainz_cover_art (releaseId : String) (net : MbCoverNet) :
    List String × Option (List Nat) :=
  let m0 := "Fetching cover art from MusicBrainz for release: " ++ releaseId
  match net with
  | .sendErr e => ([m0, "Failed to fetch cover art from MusicBrainz: " ++ e], none)
  | .badStatus st =>
    ([m0, "Cover art not available from MusicBrainz (status: " ++ st ++ ")"], none)
  | .bytesErr e => ([m0, "Failed to read cover art data: " ++ e], none)
  | .okBytes d => ([m0, "Successfully fetched cover art from MusicBrainz"], some d)

/-- Outcome of the AudioDB interaction in `fetch_audiodb_cover_art`.
The source's nested failure branches (send error, bad status, parse
error, missing album/thumbnail fields, thumbnail download failures)
each send one distinctive message and return `Ok(None)`; they are
collapsed into `fail` carrying that message. -/
inductive AdbOutcome where
  | fail (failureMsg : String)
  | okBytes (data : List Nat)

/-- `fetch_audiodb_cover_art`: the first message is always sent, then
either the failure branch's message with no bytes, or the success
message with the image bytes. -/
def fetch_audiodb_cover_art (artist album : String) (net : AdbOutcome) :
    List String × Option (List Nat) :=
  let m0 := "Trying AudioDB for cover art: " ++ artist ++ " - " ++ album
  match net with
  | .fail msg => ([m0, msg], none)
  | .okBytes d => ([m0, "Successfully fetched cover art from AudioDB"], some d)

/-! ## The orchestrator (`import_cd`, src/commands/cd.rs) -/

/-- `Duration::from_secs(300)`: the per-track timeout. -/
def trackTimeoutSecs : Nat := 300

/-- The per-track result seen by the orchestrator. -/
inductive TrackOutcome where
  | ok
  | err (e : String)
  | timeout
deriving DecidableEq, Repr

/-- `tokio::time::timeout(budget, fut)`: the future's own result when
it completes within the budget (its wall-clock seconds are
`elapsedSecs`, a parameter of the model), `Elapsed` otherwise. -/
def runWithTimeout (budgetSecs elapsedSecs : Nat) (r : Except String Unit) : TrackOutcome :=
  if elapsedSecs ≤ budgetSecs then
    match r with
    | .ok _ => .ok
    | .error e => .err e
  else .timeout

/-- The message `import_cd` sends for track index `i` (0-based) after
its `timeout(...)` match: completion, per-track error, or timeout. -/
def trackOutcomeMsg (total i : Nat) (t : CdTrack) (o : TrackOutcome) : String :=
  match o with
  | .ok => "COMPLETED: Imported track " ++ natToDec (i+1) ++ "/" ++ natToDec total ++
           ": " ++ t.title
  | .err e => "ERROR: Failed to import track " ++ t.title ++ ": " ++ e
  | .timeout => "ERROR: Timeout importing track " ++ t.title ++ " - skipping"

/-- The `for (i, track) in cd_info.tracks.iter().enumerate()` loop of
`import_cd`, starting at index `i`.  `inner i` are the messages
`import_cd_track` itself sends for track `i` before the orchestrator
reports the outcome; `elapsed i` and `results i` determine the
`timeout` race's outcome.  No branch stops the loop. -/
def trackLoop (total : Nat) (elapsed : Nat → Nat) (results : Nat → Except String Unit)
    (inner : Nat → List String) : Nat → List CdTrack → List String
  | _, [] => []
  | i, t :: rest =>
    inner i ++
      trackOutcomeMsg total i t (runWithTimeout trackTimeoutSecs (elapsed i) (results i)) ::
      trackLoop total elapsed results inner (i+1) rest

/-- The cover-art block of `import_cd`: only entered when the resolved
`CdInfo` has a `release_id`; MusicBrainz first, AudioDB on its
failure. -/
def coverArtStage (info : CdInfo) (mbNet : MbCoverNet) (adbNet : AdbOutcome) :
    List String × Option (List Nat) :=
  match info.release_id with
  | some rid =>
    let mb := fetch_musicbrainz_cover_art rid mbNet
    match mb.2 with
    | some d => (mb.1, some d)
    | none =>
      let adb := fetch_audiodb_cover_art info.artist info.title adbNet
      (mb.1 ++ adb.1, adb.2)
  | none => ([], none)

/-- The status message `import_cd` sends after the cover-art block. -/
def coverArtMsg (cover : Option (List Nat)) : String :=
  match cover with
  | some _ => "Cover art fetched successfully - will be embedded in FLAC files"
  | none => "No cover art found - FLAC files will be created without embedded artwork"

/-- `PathBuf::display` of `Path::new(music_dir).join("Artists").join(artist).join(title)`. -/
def albumDirPath (musicDir artist title : String) : String :=
  musicDir ++ "/Artists/" ++ artist ++ "/" ++ title

/-- `import_cd` (src/commands/cd.rs, `cd-ripping` feature): messages
sent on `tx` in program order and the returned result.  Directory
creation is modelled as succeeding. -/
def importCd (device musicDir : String) (dev : Except String DiscReadData)
    (discidResult : Except String Json) (searchResult : Except String (List SearchRelease))
    (mbNet : MbCoverNet) (adbNet : AdbOutcome)
    (elapsed : Nat → Nat) (results : Nat → Except String Unit)
    (inner : Nat → List String) : List String × Except String Unit :=
  let m0 := "Reading CD from device: " ++ device
  let rm := (read_cd_from_device device dev).1
  match (read_cd_from_device device dev).2 with
  | .error e => (m0 :: rm, .error e)
  | .ok info0 =>
    let m1 := "Found CD: " ++ info0.artist ++ " - " ++ info0.title
    let lm := (lookup_cd_info info0 discidResult searchResult).1
    match (lookup_cd_info info0 discidResult searchResult).2 with
    | .error e => (m0 :: rm ++ m1 :: lm, .error e)
    | .ok info =>
      let cam := (coverArtStage info mbNet adbNet).1
      let cover := (coverArtStage info mbNet adbNet).2
      let pre := m0 :: rm ++ m1 :: lm ++ cam ++
          [coverArtMsg cover,
           "Created directory: " ++ albumDirPath musicDir info.artist info.title,
           "TOTAL_FILES:" ++ natToDec info.tracks.length]
      ((pre ++ trackLoop info.tracks.length elapsed results inner 0 info.tracks) ++
        ["Successfully imported CD: " ++ info.artist ++ " - " ++ info.title],
       .ok ())

/-! ## Helper lemmas on lists and characters -/

lemma head?_mem {α : Type} {l : List α} {c : α} (h : l.head? = some c) : c ∈ l := by
  cases l with
  | nil => simp at h
  | cons a t =>
    simp only [List.head?_cons, Option.some.injEq] at h
    exact h ▸ List.mem_cons_self a t

lemma head?_dropWhile_false {α : Type} (p : α → Bool) (l : List α) {c : α}
    (h : (l.dropWhile p).head? = some c) : p c = false := by
  induction l with
  | nil => simp [List.dropWhile] at h
  | cons a t ih =>
    rw [List.dropWhile_cons] at h
    by_cases hp : p a
    · rw [if_pos hp] at h
      exact ih h
    · rw [if_neg hp] at h
      simp only [List.head?_cons, Option.some.injEq] at h
      subst h
      simpa using hp

lemma dropWhile_eq_self_of_head? {α : Type} (p : α → Bool) (l : List α)
    (h : ∀ c, l.head? = some c → p c = false) : l.dropWhile p = l := by
  cases l with
  | nil => rfl
  | cons a t =>
    have ha := h a rfl
    rw [List.dropWhile_cons, if_neg]
    simp [ha]

lemma dropWhile_subset {α : Type} (p : α → Bool) (l : List α) {c : α}
    (h : c ∈ l.dropWhile p) : c ∈ l := by
  induction l with
  | nil => simp [List.dropWhile] at h
  | cons a t ih =>
    rw [List.dropWhile_cons] at h
    by_cases hp : p a
    · rw [if_pos hp] at h
      exact List.mem_cons_of_mem a (ih h)
    · rwa [if_neg hp] at h

lemma reverse_head?_dropWhile {α : Type} (p : α → Bool) (l : List α)
    (h : l.dropWhile p ≠ []) : (l.dropWhile p).reverse.head? = l.reverse.head? := by
  induction l with
  | nil => simp [List.dropWhile] at h
  | cons a t ih =>
    rw [List.dropWhile_cons] at h ⊢
    by_cases hp : p a
    · rw [if_pos hp] at h ⊢
      have ht : t ≠ [] := by
        intro he
        rw [he] at h
        simp [List.dropWhile] at h
      rw [List.reverse_cons, List.head?_append_of_ne_nil _ (by simpa using ht)]
      exact ih h
    · rw [if_neg hp]

lemma map_fixed {α : Type} (f : α → α) (l : List α) (h : ∀ c ∈ l, f c = c) :
    l.map f = l := by
  induction l with
  | nil => rfl
  | cons a t ih =>
    rw [List.map_cons, h a (List.mem_cons_self a t), ih]
    intro c hc
    exact h c (List.mem_cons_of_mem a hc)

lemma getLast?_append_singleton {α : Type} (l : List α) (a : α) :
    (l ++ [a]).getLast? = some a := by
  rw [List.getLast?_append_of_ne_nil l (by simp)]
  rfl

lemma wsB_false_iff (c : Char) : wsB c = false ↔ ¬ isWs c := by
  unfold wsB
  exact decide_eq_false_iff_not

/-! ## Properties of `trimChars` and `sanChar` -/

lemma trimChars_subset (l : List Char) {c : Char} (h : c ∈ trimChars l) : c ∈ l := by
  unfold trimChars at h
  rw [List.mem_reverse] at h
  have h2 := dropWhile_subset _ _ h
  rw [List.mem_reverse] at h2
  exact dropWhile_subset _ _ h2

lemma trimChars_nil : trimChars [] = [] := rfl

lemma trimChars_eq_self (l : List Char)
    (h1 : ∀ c, l.head? = some c → wsB c = false)
    (h2 : ∀ c, l.reverse.head? = some c → wsB c = false) : trimChars l = l := by
  unfold trimChars
  rw [dropWhile_eq_self_of_head? _ _ h1, dropWhile_eq_self_of_head? _ _ h2,
    List.reverse_reverse]

lemma trimChars_idem (l : List Char) : trimChars (trimChars l) = trimChars l := by
  by_cases hb : (l.dropWhile wsB).reverse.dropWhile wsB = []
  · have h1 : trimChars l = [] := by
      unfold trimChars
      rw [hb]
      rfl
    rw [h1, trimChars_nil]
  · have hhead : (trimChars l).head? = (l.dropWhile wsB).head? := by
      unfold trimChars
      have := reverse_head?_dropWhile wsB (l.dropWhile wsB).reverse hb
      rw [List.reverse_reverse] at this
      exact this
    apply trimChars_eq_self
    · intro c hc
      rw [hhead] at hc
      exact head?_dropWhile_false _ _ hc
    · intro c hc
      unfold trimChars at hc
      rw [List.reverse_reverse] at hc
      exact head?_dropWhile_false _ _ hc

lemma trimChars_head?_not_ws (l : List Char) {c : Char}
    (h : (trimChars l).head? = some c) : wsB c = false := by
  by_cases hb : (l.dropWhile wsB).reverse.dropWhile wsB = []
  · have h0 : trimChars l = [] := by
      unfold trimChars
      rw [hb]
      rfl
    rw [h0] at h
    simp at h
  · have hhead : (trimChars l).head? = (l.dropWhile wsB).head? := by
      unfold trimChars
      have hx := reverse_head?_dropWhile wsB (l.dropWhile wsB).reverse hb
      rw [List.reverse_reverse] at hx
      exact hx
    rw [hhead] at h
    exact head?_dropWhile_false _ _ h

lemma trimChars_reverse_head?_not_ws (l : List Char) {c : Char}
    (h : (trimChars l).reverse.head? = some c) : wsB c = false := by
  unfold trimChars at h
  rw [List.reverse_reverse] at h
  exact head?_dropWhile_false _ _ h

lemma sanChar_not_replaceable (c : Char) : ¬ isReplaceable (sanChar c) := by
  unfold sanChar
  split
  · decide
  · assumption

lemma sanChar_idem (c : Char) : sanChar (sanChar c) = sanChar c :=
  if_neg (sanChar_not_replaceable c)

lemma mem_map_sanChar_fixed (m : List Char) {c : Char} (h : c ∈ m.map sanChar) :
    sanChar c = c := by
  rcases List.mem_map.mp h with ⟨x, _, hx⟩
  rw [← hx]
  exact sanChar_idem x

lemma data_append (s t : String) : (s ++ t).data = s.data ++ t.data := by
  cases s
  cases t
  rfl

/-! ## Decimal digits are tame characters -/

def isDigitChar (c : Char) : Prop := 48 ≤ c.toNat ∧ c.toNat ≤ 57

instance (c : Char) : Decidable (isDigitChar c) := by
  unfold isDigitChar
  exact inferInstance

lemma digitChar_digit (d : Nat) : isDigitChar (digitChar d) := by
  unfold digitChar isDigitChar
  split_ifs <;> decide

lemma natToDecAux_digits : ∀ fuel n, ∀ c ∈ natToDecAux fuel n, isDigitChar c := by
  intro fuel
  induction fuel with
  | zero =>
    intro n c h
    simp [natToDecAux] at h
  | succ f ih =>
    intro n c h
    rw [natToDecAux] at h
    by_cases h10 : n < 10
    · rw [if_pos h10] at h
      simp only [List.mem_singleton] at h
      exact h ▸ digitChar_digit n
    · rw [if_neg h10] at h
      rcases List.mem_append.mp h with h1 | h1
      · exact ih _ c h1
      · simp only [List.mem_singleton] at h1
        exact h1 ▸ digitChar_digit _

lemma natToDecAux_ne_nil (fuel n : Nat) : natToDecAux (fuel+1) n ≠ [] := by
  rw [natToDecAux]
  split
  · simp
  · simp

lemma pad2_digits (n : Nat) : ∀ c ∈ (pad2 n).data, isDigitChar c := by
  unfold pad2
  split
  · intro c hc
    rw [data_append] at hc
    rcases List.mem_append.mp hc with h1 | h1
    · have : c = '0' := by simpa using h1
      rw [this]
      decide
    · exact natToDecAux_digits _ _ c h1
  · intro c hc
    exact natToDecAux_digits _ _ c hc

lemma pad2_data_ne_nil (n : Nat) : (pad2 n).data ≠ [] := by
  unfold pad2
  split
  · rw [data_append]
    simp
  · exact natToDecAux_ne_nil n n

lemma digit_not_replaceable {c : Char} (h : isDigitChar c) : ¬ isReplaceable c := by
  unfold isDigitChar at h
  unfold isReplaceable
  omega

lemma digit_not_ws {c : Char} (h : isDigitChar c) : ¬ isWs c := by
  unfold isDigitChar at h
  unfold isWs
  omega

/-! Sanity checks against the repository's own unit tests of
`sanitize_filename` (src/commands/cd.rs, `test_sanitize_filename_basic`
and `test_sanitize_filename_edge_cases`). -/

example : sanitize_filename "normal_name" = "normal_name" := by decide
example : sanitize_filename "file with spaces" = "file with spaces" := by decide
example : sanitize_filename "file/with\\bad:chars*" = "file_with_bad_chars_" := by decide
example : sanitize_filename "" = "" := by decide
example : sanitize_filename "   " = "" := by decide
example : sanitize_filename "file\x00with\x01control\x02chars" = "file_with_control_chars" := by
  decide

example : natToDec 0 = "0" := by decide
example : natToDec 11 = "11" := by decide
example : pad2 3 = "03" := by decide
example : pad2 12 = "12" := by decide

example : (read_cd_from_device "/dev/sr0" (.ok ddSample)).2 = .ok infoSample := by rfl

/-- A string none of whose characters the replacement map touches, and
with no leading or trailing whitespace, is a fixed point of
`sanitize_filename`. -/
lemma sanitize_eq_self_of (s : String) (hfix : s.data.map sanChar = s.data)
    (h1 : ∀ c, s.data.head? = some c → wsB c = false)
    (h2 : ∀ c, s.data.reverse.head? = some c → wsB c = false) :
    sanitize_filename s = s := by
  unfold sanitize_filename
  rw [hfix, trimChars_eq_self _ h1 h2]

/-! ## Claim C10 -/

/-- Claim C10: `sanitize_filename` is idempotent — for every string `s`,
`sanitize_filename (sanitize_filename s) = sanitize_filename s` — because
its output never contains the characters `/ \ : * ? " < > |` or control
characters and carries no leading or trailing whitespace; consequently
every output filename built from it (`{number:02} {sanitized_title}.flac`)
is a fixed point of sanitization. -/
theorem c10_sanitize_filename_idempotent :
    (∀ s, sanitize_filename (sanitize_filename s) = sanitize_filename s) ∧
    (∀ s c, c ∈ (sanitize_filename s).data → ¬ isReplaceable c) ∧
    (∀ s c, (sanitize_filename s).data.head? = some c → ¬ isWs c) ∧
    (∀ s c, (sanitize_filename s).data.reverse.head? = some c → ¬ isWs c) ∧
    (∀ n title, sanitize_filename (trackFilename n title) = trackFilename n title) := by
  refine ⟨?_, ?_, ?_, ?_, ?_⟩
  · intro s
    show String.mk (trimChars ((trimChars (s.data.map sanChar)).map sanChar)) =
      String.mk (trimChars (s.data.map sanChar))
    rw [map_fixed _ _ (fun c hc => mem_map_sanChar_fixed _ (trimChars_subset _ hc)),
      trimChars_idem]
  · intro s c hc
    have hc2 : c ∈ trimChars (s.data.map sanChar) := hc
    rcases List.mem_map.mp (trimChars_subset _ hc2) with ⟨x, _, hx⟩
    rw [← hx]
    exact sanChar_not_replaceable x
  · intro s c h
    have h2 : (trimChars (s.data.map sanChar)).head? = some c := h
    exact (wsB_false_iff c).mp (trimChars_head?_not_ws _ h2)
  · intro s c h
    have h2 : (trimChars (s.data.map sanChar)).reverse.head? = some c := h
    exact (wsB_false_iff c).mp (trimChars_reverse_head?_not_ws _ h2)
  · intro n title
    have hdata : (trackFilename n title).data =
        (((pad2 n).data ++ [' ']) ++ (sanitize_filename title).data) ++
          ['.', 'f', 'l', 'a', 'c'] := by
      unfold trackFilename
      simp only [data_append]
    have hpadne := pad2_data_ne_nil n
    have hab : (pad2 n).data ++ [' '] ≠ [] := by simp
    have habc : ((pad2 n).data ++ [' ']) ++ (sanitize_filename title).data ≠ [] := by simp
    apply sanitize_eq_self_of
    · apply map_fixed
      intro c hc
      rw [hdata] at hc
      rcases List.mem_append.mp hc with h1 | hflac
      · rcases List.mem_append.mp h1 with h2 | hsan
        · rcases List.mem_append.mp h2 with hpad | hsp
          · exact if_neg (digit_not_replaceable (pad2_digits n c hpad))
          · have hce : c = ' ' := by simpa using hsp
            rw [hce]
            decide
        · have hsan2 : c ∈ trimChars (title.data.map sanChar) := hsan
          exact mem_map_sanChar_fixed _ (trimChars_subset _ hsan2)
      · have hce : c = '.' ∨ c = 'f' ∨ c = 'l' ∨ c = 'a' ∨ c = 'c' := by
          simpa using hflac
        rcases hce with h | h | h | h | h <;> (rw [h]; decide)
    · intro c hc
      rw [hdata, List.head?_append_of_ne_nil _ habc, List.head?_append_of_ne_nil _ hab,
        List.head?_append_of_ne_nil _ hpadne] at hc
      rw [wsB_false_iff]
      exact digit_not_ws (pad2_digits n c (head?_mem hc))
    · intro c hc
      rw [hdata, List.reverse_append,
        List.head?_append_of_ne_nil _ (by decide : (['.', 'f', 'l', 'a', 'c'] : List Char).reverse ≠ [])] at hc
      have hce : c = 'c' := by
        have hx : (['.', 'f', 'l', 'a', 'c'] : List Char).reverse.head? = some 'c' := rfl
        rw [hx] at hc
        exact (Option.some.injEq _ _).mp hc.symm
      rw [hce, wsB_false_iff]
      decide

/-- Witness for C10 at concrete inputs. -/
theorem c10_witness :
    sanitize_filename (sanitize_filename " a/b ") = sanitize_filename " a/b " ∧
    ¬ isReplaceable 'a' ∧ ¬ isWs 'a' ∧ ¬ isWs 'b' ∧
    sanitize_filename (trackFilename 1 "Track 01") = trackFilename 1 "Track 01" := by
  refine ⟨c10_sanitize_filename_idempotent.1 " a/b ", ?_, ?_, ?_,
    c10_sanitize_filename_idempotent.2.2.2.2 1 "Track 01"⟩
  · exact c10_sanitize_filename_idempotent.2.1 " a/b " 'a' (by decide)
  · exact c10_sanitize_filename_idempotent.2.2.1 " a/b " 'a' (by decide)
  · exact c10_sanitize_filename_idempotent.2.2.2.1 " a/b " 'b' (by decide)

/-! ## Helper lemmas about the pipeline functions -/

/-- Characterisation of a successful `read_cd_from_device`. -/
lemma read_ok_spec {device : String} {dd : DiscReadData} {info : CdInfo}
    (h : (read_cd_from_device device (.ok dd)).2 = .ok info) :
    info = { disc_id := dd.discIdStr, title := "Unknown Album", artist := "Unknown Artist"
             tracks := (tracksFromTocAux 1 dd.toc).2
             total_duration := sumDurations (tracksFromTocAux 1 dd.toc).2
             release_id := none } := by
  simp only [read_cd_from_device] at h
  split at h
  · simp at h
  · simp only [Except.ok.injEq] at h
    exact h.symm

/-- Every track produced by the TOC loop started at index `i` comes from
an audio TOC entry with a valid sector range, at the offset its number
records. -/
lemma tracksFromTocAux_mem : ∀ (toc : List TocEntry) (i : Nat) (tr : CdTrack),
    tr ∈ (tracksFromTocAux i toc).2 →
    ∃ j e, toc.get? j = some e ∧ e.isAudio = true ∧
      e.firstSector ≤ e.lastSector ∧ tr.number = i + j := by
  intro toc
  induction toc with
  | nil =>
    intro i tr h
    simp [tracksFromTocAux] at h
  | cons e rest ih =>
    intro i tr h
    cases haud : e.isAudio with
    | false =>
      simp only [tracksFromTocAux, haud, Bool.false_eq_true, if_false] at h
      obtain ⟨j, e2, hj, ha, hle, hn⟩ := ih (i+1) tr h
      exact ⟨j + 1, e2, by simpa using hj, ha, hle, by omega⟩
    | true =>
      by_cases hlt : e.lastSector < e.firstSector
      · simp only [tracksFromTocAux, haud, if_true, if_pos hlt] at h
        obtain ⟨j, e2, hj, ha, hle, hn⟩ := ih (i+1) tr h
        exact ⟨j + 1, e2, by simpa using hj, ha, hle, by omega⟩
      · simp only [tracksFromTocAux, haud, if_true, if_neg hlt] at h
        rcases List.mem_cons.mp h with hhd | htl
        · exact ⟨0, e, rfl, haud, by omega, by rw [hhd]; rfl⟩
        · obtain ⟨j, e2, hj, ha, hle, hn⟩ := ih (i+1) tr htl
          exact ⟨j + 1, e2, by simpa using hj, ha, hle, by omega⟩

/-- `cd_info_from_discid_response` establishes the duration-sum
invariant by construction. -/
lemma cdInfoFromDiscid_inv (rd : Json) (ci : CdInfo) {out : CdInfo}
    (h : cd_info_from_discid_response rd ci = .ok out) :
    out.total_duration = sumDurations out.tracks := by
  unfold cd_info_from_discid_response at h
  simp only [Except.ok.injEq] at h
  rw [← h]

/-! ## Claim C4 -/

/-- Claim C4 (evaluation at the failing input): on the spec's scenario
TOC — audio tracks with sector ranges 0–149 and 150–299 — the code's
`(last_sector - first_sector) / 75` yields durations of 1 second each,
not the 2 seconds the claim derives from the 150-sector spans at 75
sectors per second. -/
theorem c4_duration_off_by_one_eval :
    (read_cd_from_device "/dev/sr0" (.ok ddSample)).2 = .ok infoSample ∧
    infoSample.tracks.map CdTrack.duration = [1, 1] ∧
    ¬ infoSample.tracks.map CdTrack.duration = [2, 2] := by
  exact ⟨by rfl, by decide, by decide⟩

/-! ## Claim C7 -/

/-- A `DiscReadData` whose TOC has no audio track, for the empty-filter
error path. -/
def ddEmpty : DiscReadData :=
  { discIdStr := "D2", firstTrack := 1, lastTrack := 1, sectors := 0
    toc := [⟨false, 0, 10⟩] }

/-- Claim C7: every track in the `CdInfo` returned by
`read_cd_from_device` comes from a TOC entry that is audio and satisfies
`last_sector >= first_sector`; an audio entry violating that is dropped
with a warning while the loop continues; and if no track survives the
filter the function returns the "no valid audio tracks" error rather
than an empty `CdInfo`. -/
theorem c7_toc_filtering :
    (∀ device dd info, (read_cd_from_device device (.ok dd)).2 = .ok info →
      ∀ tr ∈ info.tracks, ∃ j e, dd.toc.get? j = some e ∧ e.isAudio = true ∧
        e.firstSector ≤ e.lastSector ∧ tr.number = j + 1) ∧
    (∀ i e rest, e.isAudio = true → e.lastSector < e.firstSector →
      tracksFromTocAux i (e :: rest) =
        (("Invalid sector range for track " ++ natToDec i ++ ": first=" ++
            natToDec e.firstSector ++ " last=" ++ natToDec e.lastSector) ::
          (tracksFromTocAux (i+1) rest).1, (tracksFromTocAux (i+1) rest).2)) ∧
    (∀ device dd, (tracksFromTocAux 1 dd.toc).2 = [] →
      (read_cd_from_device device (.ok dd)).2 =
        .error "No valid audio tracks found on the disc. This may indicate the CD is damaged or not readable.") := by
  refine ⟨?_, ?_, ?_⟩
  · intro device dd info h tr htr
    rw [read_ok_spec h] at htr
    simp only at htr
    obtain ⟨j, e, hj, ha, hle, hn⟩ := tracksFromTocAux_mem dd.toc 1 tr htr
    exact ⟨j, e, hj, ha, hle, by omega⟩
  · intro i e rest ha hlt
    simp [tracksFromTocAux, ha, hlt]
  · intro device dd h
    simp [read_cd_from_device, h]

/-- Witness for C7 at concrete inputs. -/
theorem c7_witness :
    (∃ j e, ddSample.toc.get? j = some e ∧ e.isAudio = true ∧
      e.firstSector ≤ e.lastSector ∧
      (⟨1, "Track 01", "Unknown Artist", 1, "01 Track 01.flac"⟩ : CdTrack).number = j + 1) ∧
    tracksFromTocAux 1 [⟨true, 5, 3⟩] =
      (["Invalid sector range for track 1: first=5 last=3"], []) ∧
    (read_cd_from_device "/dev/sr0" (.ok ddEmpty)).2 =
      .error "No valid audio tracks found on the disc. This may indicate the CD is damaged or not readable." := by
  refine ⟨?_, ?_, ?_⟩
  · exact c7_toc_filtering.1 "/dev/sr0" ddSample infoSample (by rfl) _ (by decide)
  · exact (c7_toc_filtering.2.1 1 ⟨true, 5, 3⟩ [] rfl (by decide)).trans (by decide)
  · exact c7_toc_filtering.2.2 "/dev/sr0" ddEmpty (by decide)

/-! ## Claim C6 -/

/-- Claim C6: every `CdInfo` constructed or returned by the pipeline —
after the TOC read, after a disc-id match, and after the search fallback
— has `total_duration` equal to the sum of its tracks' durations (the
lookup stage preserves the invariant it receives). -/
theorem c6_total_duration_invariant :
    (∀ device dev info, (read_cd_from_device device dev).2 = .ok info →
      info.total_duration = sumDurations info.tracks) ∧
    (∀ rd ci out, cd_info_from_discid_response rd ci = .ok out →
      out.total_duration = sumDurations out.tracks) ∧
    (∀ ci dr sr out, ci.total_duration = sumDurations ci.tracks →
      (lookup_cd_info ci dr sr).2 = .ok out →
      out.total_duration = sumDurations out.tracks) := by
  refine ⟨?_, ?_, ?_⟩
  · intro device dev info h
    cases dev with
    | error e => simp [read_cd_from_device] at h
    | ok dd =>
      rw [read_ok_spec h]
  · intro rd ci out h
    exact cdInfoFromDiscid_inv rd ci h
  · intro ci dr sr out hci h
    cases dr with
    | ok resp =>
      simp only [lookup_cd_info] at h
      split at h
      · split at h
        · split at h
          · exact cdInfoFromDiscid_inv _ ci h
          · simp only [Except.ok.injEq] at h
            rw [← h]
            exact hci
        · simp only [Except.ok.injEq] at h
          rw [← h]
          exact hci
      · simp only [Except.ok.injEq] at h
        rw [← h]
        exact hci
    | error e =>
      simp only [lookup_cd_info] at h
      split at h
      · split at h
        · simp only [Except.ok.injEq] at h
          rw [← h]
          exact hci
        · simp only [Except.ok.injEq] at h
          rw [← h]
          exact hci
      · simp only [Except.ok.injEq] at h
        rw [← h]
        exact hci

/-- The `CdInfo` built by `cd_info_from_discid_response` from an empty
JSON object: fallback tracks, empty release id. -/
def infoFallback : CdInfo :=
  { disc_id := "D1", title := "Unknown Album", artist := "Unknown Artist"
    tracks := fallbackTracks "Unknown Artist", total_duration := 1980
    release_id := some "" }

/-- Witness for C6 at concrete inputs. -/
theorem c6_witness :
    infoSample.total_duration = sumDurations infoSample.tracks ∧
    infoFallback.total_duration = sumDurations infoFallback.tracks := by
  constructor
  · exact c6_total_duration_invariant.1 "/dev/sr0" (.ok ddSample) infoSample (by rfl)
  · exact c6_total_duration_invariant.2.1 (Json.obj []) infoSample infoFallback (by rfl)

/-! ## Claim C5 -/

/-- Claim C5: when the disc-id lookup fails and the free-text search
also fails or finds no release, `lookup_cd_info` returns the input
`CdInfo` unchanged (title and artist as given, `release_id` still
`None`), and no error is propagated. -/
theorem c5_lookup_fallback_unchanged :
    ∀ ci e1 e2,
      (lookup_cd_info ci (.error e1) (.error e2)).2 = .ok ci ∧
      (lookup_cd_info ci (.error e1) (.ok [])).2 = .ok ci ∧
      (ci.release_id = none → ∀ out,
        ((lookup_cd_info ci (.error e1) (.error e2)).2 = .ok out ∨
          (lookup_cd_info ci (.error e1) (.ok [])).2 = .ok out) →
        out.title = ci.title ∧ out.artist = ci.artist ∧ out.release_id = none) := by
  intro ci e1 e2
  refine ⟨rfl, rfl, ?_⟩
  intro hrel out hor
  rcases hor with h | h
  · have h2 : (Except.ok ci : Except String CdInfo) = .ok out := h
    injection h2 with h3
    subst h3
    exact ⟨rfl, rfl, hrel⟩
  · have h2 : (Except.ok ci : Except String CdInfo) = .ok out := h
    injection h2 with h3
    subst h3
    exact ⟨rfl, rfl, hrel⟩

/-- Witness for C5 at concrete inputs. -/
theorem c5_witness :
    (lookup_cd_info infoSample (.error "net down") (.error "search down")).2 =
      .ok infoSample ∧
    (lookup_cd_info infoSample (.error "net down") (.ok [])).2 = .ok infoSample ∧
    (infoSample.title = infoSample.title ∧ infoSample.artist = infoSample.artist ∧
      infoSample.release_id = none) := by
  have h := c5_lookup_fallback_unchanged infoSample "net down" "search down"
  exact ⟨h.1, h.2.1, h.2.2 (by decide) infoSample (Or.inl h.1)⟩

/-! ## Claim C2 -/

/-- Claim C2 (evaluation of the divergence): `set_audio_metadata` never
changes the file on disk — the `save_to` call is commented out — even
though the in-memory tag it builds does carry the track title, track
artist, album title, album artist, track number and the external
release id; and it always returns `Ok(())`, so a track's import never
fails here. -/
theorem c2_tags_never_persisted :
    (∀ fd tr a b rid, set_audio_metadata fd tr a b rid = (fd, .ok ())) ∧
    (∀ (tag : Tag) tr a b id,
      inMemoryTag tag tr a b (some id) ItemKey.trackTitle = some tr.title ∧
      inMemoryTag tag tr a b (some id) ItemKey.trackArtist = some tr.artist ∧
      inMemoryTag tag tr a b (some id) ItemKey.albumTitle = some a ∧
      inMemoryTag tag tr a b (some id) ItemKey.albumArtist = some b ∧
      inMemoryTag tag tr a b (some id) ItemKey.trackNumber = some (natToDec tr.number) ∧
      inMemoryTag tag tr a b (some id) ItemKey.musicBrainzReleaseId = some id) := by
  constructor
  · intro fd tr a b rid
    cases fd <;> rfl
  · intro tag tr a b id
    refine ⟨rfl, rfl, rfl, rfl, rfl, rfl⟩

/-! ## Claim C3 -/

/-- A discid release response carrying exactly one track ("Intro"),
fewer than the two TOC tracks of `infoSample`. -/
def rdC3 : Json :=
  Json.obj [("id", Json.str "R1"), ("title", Json.str "Test Album"),
    ("artist-credit", Json.arr [Json.obj [("name", Json.str "Test Artist")]]),
    ("media", Json.arr [Json.obj [("tracks", Json.arr [Json.obj
      [("number", Json.str "1"), ("title", Json.str "Intro"),
       ("length", Json.num 150000)]])]])]

/-- Counterexample to C3: for a release match carrying one track while
the existing `CdInfo` has two, the result has exactly one track — the
placeholder `Track 02` at the unmatched position is dropped, not kept,
so the existing track list is not the base of the merge. -/
theorem c3_counterexample :
    (cd_info_from_discid_response rdC3 infoSample).map
      (fun o => o.tracks.map CdTrack.title) = .ok ["Intro"] ∧
    infoSample.tracks.map CdTrack.title = ["Track 01", "Track 02"] := by
  exact ⟨rfl, rfl⟩

/-- Claim C3 (amended): the release's track list wholesale replaces the
`CdInfo`'s track list — the result's tracks are a function of the
release data alone, independent of the existing track list — and when
the `media`/`tracks` structure is missing the hardcoded 11-track
fallback is used. -/
theorem c3_tracks_independent_of_input :
    (∀ rd c1 c2, (cd_info_from_discid_response rd c1).map CdInfo.tracks =
      (cd_info_from_discid_response rd c2).map CdInfo.tracks) ∧
    (∀ ci, (cd_info_from_discid_response (Json.obj []) ci).map
      (fun o => o.tracks.length) = .ok 11) := by
  constructor
  · intro rd c1 c2
    rfl
  · intro ci
    rfl

/-! ## Claim C1 -/

/-- Every track of the list receives its outcome message in the track
loop, whatever the outcomes of the other tracks. -/
lemma trackLoop_mem (total : Nat) (elapsed : Nat → Nat)
    (results : Nat → Except String Unit) (inner : Nat → List String) :
    ∀ (l : List CdTrack) (i j : Nat) (h : j < l.length),
      trackOutcomeMsg total (i + j) (l.get ⟨j, h⟩)
        (runWithTimeout trackTimeoutSecs (elapsed (i + j)) (results (i + j))) ∈
        trackLoop total elapsed results inner i l := by
  intro l
  induction l with
  | nil =>
    intro i j h
    simp at h
  | cons t rest ih =>
    intro i j h
    cases j with
    | zero =>
      simp only [trackLoop, Nat.add_zero, List.get]
      apply List.mem_append_right
      exact List.mem_cons_self _ _
    | succ j2 =>
      have hlt : j2 < rest.length := by
        simp only [List.length_cons] at h
        omega
      have hmem := ih (i+1) j2 hlt
      have heq : i + (j2 + 1) = (i + 1) + j2 := by omega
      rw [heq]
      simp only [trackLoop, List.get]
      apply List.mem_append_right
      exact List.mem_cons_of_mem _ hmem

/-- Claim C1: in `import_cd` each track's rip→encode→tag sequence is
wrapped in the 300-second `tokio::time::timeout`; a timed-out track
gets an `ERROR` message naming it with the timeout reason, every track
(also after a failure or timeout of an earlier one) gets its outcome
message, the final completion message is the last message sent, and the
function returns success no matter how the individual tracks fared. -/
theorem c1_import_never_aborted_by_track :
    ∀ device musicDir dev dr sr mbNet adbNet elapsed results inner info0 fi,
      (read_cd_from_device device dev).2 = .ok info0 →
      (lookup_cd_info info0 dr sr).2 = .ok fi →
      trackTimeoutSecs = 300 ∧
      (importCd device musicDir dev dr sr mbNet adbNet elapsed results inner).2 =
        .ok () ∧
      (importCd device musicDir dev dr sr mbNet adbNet elapsed results inner).1.getLast? =
        some ("Successfully imported CD: " ++ fi.artist ++ " - " ++ fi.title) ∧
      (∀ j (hj : j < fi.tracks.length),
        trackOutcomeMsg fi.tracks.length j (fi.tracks.get ⟨j, hj⟩)
          (runWithTimeout trackTimeoutSecs (elapsed j) (results j)) ∈
          (importCd device musicDir dev dr sr mbNet adbNet elapsed results inner).1) ∧
      (∀ k (hk : k < fi.tracks.length), trackTimeoutSecs < elapsed k →
        ("ERROR: Timeout importing track " ++ (fi.tracks.get ⟨k, hk⟩).title ++
          " - skipping") ∈
          (importCd device musicDir dev dr sr mbNet adbNet elapsed results inner).1) := by
  intro device musicDir dev dr sr mbNet adbNet elapsed results inner info0 fi h1 h2
  refine ⟨rfl, ?_, ?_, ?_, ?_⟩
  · simp only [importCd, h1, h2]
  · simp only [importCd, h1, h2]
    exact getLast?_append_singleton _ _
  · intro j hj
    have hmem := trackLoop_mem fi.tracks.length elapsed results inner fi.tracks 0 j hj
    simp only [Nat.zero_add] at hmem
    simp only [importCd, h1, h2]
    apply List.mem_append_left
    apply List.mem_append_right
    exact hmem
  · intro k hk hto
    have hmem := trackLoop_mem fi.tracks.length elapsed results inner fi.tracks 0 k hk
    simp only [Nat.zero_add] at hmem
    have ht : runWithTimeout trackTimeoutSecs (elapsed k) (results k) = .timeout := by
      unfold runWithTimeout
      rw [if_neg (by omega)]
    rw [ht] at hmem
    simp only [importCd, h1, h2]
    apply List.mem_append_left
    apply List.mem_append_right
    exact hmem

/-- Witness for C1 at concrete inputs: track 1 of the sample disc times
out (301 s elapsed against the 300 s budget) yet the import succeeds. -/
theorem c1_witness :
    trackTimeoutSecs = 300 ∧
    (importCd "/dev/sr0" "/music" (.ok ddSample) (.error "e1") (.error "e2")
      (.sendErr "x") (.fail "y") (fun _ => 301) (fun _ => .ok ()) (fun _ => [])).2 =
      .ok () ∧
    ("ERROR: Timeout importing track Track 01 - skipping" ∈
      (importCd "/dev/sr0" "/music" (.ok ddSample) (.error "e1") (.error "e2")
        (.sendErr "x") (.fail "y") (fun _ => 301) (fun _ => .ok ()) (fun _ => [])).1) := by
  have h := c1_import_never_aborted_by_track "/dev/sr0" "/music" (.ok ddSample)
    (.error "e1") (.error "e2") (.sendErr "x") (.fail "y") (fun _ => 301)
    (fun _ => .ok ()) (fun _ => []) infoSample infoSample (by rfl) (by rfl)
  exact ⟨h.1, h.2.1, h.2.2.2.2 0 (by decide) (by decide)⟩

/-! ## Claim C8 -/

/-- Claim C8 (amended): the `TOTAL_FILES` count emitted by `import_cd`
equals the track count of the post-resolution `CdInfo`; when both
release-resolution steps fail that `CdInfo` is the TOC-derived one, so
the count is the number of audio tracks surviving TOC filtering — but
after a disc-id match it is the release's (or the fallback's) track
count. -/
theorem c8_total_files_count :
    ∀ device musicDir dev dr sr mbNet adbNet elapsed results inner info0 fi,
      (read_cd_from_device device dev).2 = .ok info0 →
      (lookup_cd_info info0 dr sr).2 = .ok fi →
      (("TOTAL_FILES:" ++ natToDec fi.tracks.length) ∈
        (importCd device musicDir dev dr sr mbNet adbNet elapsed results inner).1) ∧
      (∀ e1 e2, dr = .error e1 → sr = .error e2 → fi = info0) ∧
      (∀ dd, dev = .ok dd → info0.tracks = (tracksFromTocAux 1 dd.toc).2) := by
  intro device musicDir dev dr sr mbNet adbNet elapsed results inner info0 fi h1 h2
  refine ⟨?_, ?_, ?_⟩
  · simp only [importCd, h1, h2]
    apply List.mem_append_left
    apply List.mem_append_left
    simp [List.mem_append, List.mem_cons]
  · intro e1 e2 he1 he2
    subst he1
    subst he2
    have h3 : (Except.ok info0 : Except String CdInfo) = .ok fi := h2
    injection h3 with h4
    exact h4.symm
  · intro dd hdd
    subst hdd
    rw [read_ok_spec h1]

/-- Witness for C8 at concrete inputs: with both resolution steps
failing, the emitted count is the surviving-track count (2). -/
theorem c8_witness :
    ("TOTAL_FILES:2" ∈
      (importCd "/dev/sr0" "/music" (.ok ddSample) (.error "e1") (.error "e2")
        (.sendErr "x") (.fail "y") (fun _ => 0) (fun _ => .ok ()) (fun _ => [])).1) ∧
    infoSample.tracks = (tracksFromTocAux 1 ddSample.toc).2 := by
  have h := c8_total_files_count "/dev/sr0" "/music" (.ok ddSample)
    (.error "e1") (.error "e2") (.sendErr "x") (.fail "y") (fun _ => 0)
    (fun _ => .ok ()) (fun _ => []) infoSample infoSample (by rfl) (by rfl)
  exact ⟨h.1, h.2.2 ddSample rfl⟩

/-- A discid response whose first release has an id, a title and an
artist credit but no `media` field, so the 11-track fallback replaces
the 2-track TOC list. -/
def rdC8 : Json :=
  Json.obj [("releases", Json.arr [Json.obj
    [("id", Json.str "R1"), ("title", Json.str "T"),
     ("artist-credit", Json.arr [Json.obj [("name", Json.str "A")]])]])]

/-- Counterexample to C8 as stated: after a disc-id match whose release
data lacks a parsable track array, `import_cd` emits `TOTAL_FILES:11`
(the fallback track count) although only 2 audio tracks survived TOC
filtering, and it does not emit `TOTAL_FILES:2`. -/
theorem c8_counterexample :
    ("TOTAL_FILES:11" ∈
      (importCd "/dev/sr0" "/music" (.ok ddSample) (.ok rdC8) (.error "unused")
        (.sendErr "x") (.fail "y") (fun _ => 0) (fun _ => .ok ()) (fun _ => [])).1) ∧
    ¬ ("TOTAL_FILES:2" ∈
      (importCd "/dev/sr0" "/music" (.ok ddSample) (.ok rdC8) (.error "unused")
        (.sendErr "x") (.fail "y") (fun _ => 0) (fun _ => .ok ()) (fun _ => [])).1) ∧
    infoSample.tracks.length = 2 := by
  exact ⟨by decide, by decide, by decide⟩

/-! ## Claim C9 -/

/-- Claim C9 (amended): `import_cd` resolves cover art only when the
post-resolution `CdInfo` carries a release id — MusicBrainz by release
id first, AudioDB by artist+album only as its fallback; with no release
id neither source is queried — and whenever no art is obtained, the
CD import proceeds without art and without error. -/
theorem c9_cover_art_gated_on_release_id :
    ∀ device musicDir dev dr sr mbNet adbNet elapsed results inner info0 fi,
      (read_cd_from_device device dev).2 = .ok info0 →
      (lookup_cd_info info0 dr sr).2 = .ok fi →
      (fi.release_id = none → coverArtStage fi mbNet adbNet = ([], none)) ∧
      (∀ rid, fi.release_id = some rid →
        (coverArtStage fi mbNet adbNet).1.head? =
          some ("Fetching cover art from MusicBrainz for release: " ++ rid)) ∧
      (∀ rid, fi.release_id = some rid →
        (fetch_musicbrainz_cover_art rid mbNet).2 = none →
        ("Trying AudioDB for cover art: " ++ fi.artist ++ " - " ++ fi.title) ∈
          (coverArtStage fi mbNet adbNet).1) ∧
      ((coverArtStage fi mbNet adbNet).2 = none →
        (importCd device musicDir dev dr sr mbNet adbNet elapsed results inner).2 =
          .ok () ∧
        ("No cover art found - FLAC files will be created without embedded artwork" ∈
          (importCd device musicDir dev dr sr mbNet adbNet elapsed results inner).1)) := by
  intro device musicDir dev dr sr mbNet adbNet elapsed results inner info0 fi h1 h2
  refine ⟨?_, ?_, ?_, ?_⟩
  · intro hrel
    simp [coverArtStage, hrel]
  · intro rid hrel
    simp only [coverArtStage, hrel]
    cases mbNet <;> rfl
  · intro rid hrel hnone
    simp only [coverArtStage, hrel, hnone]
    apply List.mem_append_right
    cases adbNet <;> exact List.mem_cons_self _ _
  · intro hc
    constructor
    · simp only [importCd, h1, h2]
    · simp only [importCd, h1, h2]
      apply List.mem_append_left
      apply List.mem_append_left
      rw [hc]
      simp [List.mem_append, List.mem_cons, coverArtMsg]

/-- Witness for C9 at concrete inputs. -/
theorem c9_witness :
    coverArtStage infoSample (.sendErr "x") (.fail "y") = ([], none) ∧
    (importCd "/dev/sr0" "/music" (.ok ddSample) (.error "e1") (.error "e2")
      (.sendErr "x") (.fail "y") (fun _ => 0) (fun _ => .ok ()) (fun _ => [])).2 =
      .ok () ∧
    ("No cover art found - FLAC files will be created without embedded artwork" ∈
      (importCd "/dev/sr0" "/music" (.ok ddSample) (.error "e1") (.error "e2")
        (.sendErr "x") (.fail "y") (fun _ => 0) (fun _ => .ok ()) (fun _ => [])).1) := by
  have h := c9_cover_art_gated_on_release_id "/dev/sr0" "/music" (.ok ddSample)
    (.error "e1") (.error "e2") (.sendErr "x") (.fail "y") (fun _ => 0)
    (fun _ => .ok ()) (fun _ => []) infoSample infoSample (by rfl) (by rfl)
  exact ⟨h.1 rfl, (h.2.2.2 (by rfl)).1, (h.2.2.2 (by rfl)).2⟩

/-- Counterexample to C9 as stated: for an import whose resolved
`CdInfo` has no release id, `import_cd` never queries the artist+album
source — the message `fetch_audiodb_cover_art` unconditionally sends
first does not appear in the trace — although the import still proceeds
and succeeds. -/
theorem c9_counterexample :
    infoSample.release_id = none ∧
    ¬ (("Trying AudioDB for cover art: " ++ infoSample.artist ++ " - " ++
        infoSample.title) ∈
      (importCd "/dev/sr0" "/music" (.ok ddSample) (.error "e1") (.error "e2")
        (.sendErr "x") (.fail "y") (fun _ => 0) (fun _ => .ok ()) (fun _ => [])).1) ∧
    (importCd "/dev/sr0" "/music" (.ok ddSample) (.error "e1") (.error "e2")
      (.sendErr "x") (.fail "y") (fun _ => 0) (fun _ => .ok ()) (fun _ => [])).2 =
      .ok () := by
  exact ⟨rfl, by decide, rfl⟩
